import Mathlib

/-!
Verification of the 0-0 alert pipeline (src/analyzer.py and src/main.py).

The repository is a scheduled fetch-and-notify job: for each configured
league it fetches today's fixtures from a sports-data HTTP API, checks per
team whether the team's last finished match ended 0-0, computes a draw-rate
and a defensive-trend indicator from team statistics, and pushes a Telegram
alert (falling back to console output when credentials are missing).

This file is a shallow embedding of that pipeline.  HTTP traffic is
abstracted by an oracle (`HttpOutcome`): each outbound query is a value that
is either a transport-level failure or a response carrying a status code and
an optionally-parseable JSON body.  Python floats are modelled as rationals,
Python `None`/falsy values as `Option`, and the catch-all `try/except`
blocks as total functions (an `exceptionEscaped`/logging flag records the
observable effect of the handler).  Message-string rendering (date and
kickoff-time formatting) is abstracted: an alert is modelled as the
structured data that feeds the template, not the rendered text.
-/

namespace SG

/-- A team as embedded in API fixture objects: `{"id": ..., "name": ...}`. -/
structure Team where
  id : Nat
  name : String
deriving DecidableEq

/-- A fixture record, restricted to the fields the pipeline reads:
`teams.home`, `teams.away`, `league.name`, `fixture.status.short`, and
`goals.home` / `goals.away` (nullable until the match is played). -/
structure Fixture where
  homeTeam : Team
  awayTeam : Team
  leagueName : String
  statusShort : String
  goalsHome : Option Int
  goalsAway : Option Int
deriving DecidableEq

/-- Team statistics as read by `_calculate_real_stats`:
`fixtures.played.total`, `fixtures.draws.total`, `clean_sheet.total`,
`failed_to_score.total` (each read with `.get(..., 0)`, so a missing field
is 0 and the values are naturals). -/
structure TeamStats where
  playedTotal : Nat
  drawsTotal : Nat
  cleanSheetTotal : Nat
  failedToScoreTotal : Nat
deriving DecidableEq

/-- The second component returned by `_calculate_real_stats`: the Python
function returns a float on the main path but the strings "N/A" / "0/0" on
its two early-return paths, so its type is a sum. -/
inductive TrendVal where
  | num : Rat → TrendVal
  | str : String → TrendVal
deriving DecidableEq

/-- Outcome of one outbound HTTP request, as observed by `_get_api_data`:
either a transport-level failure (DNS, timeout, connection reset — anything
that makes `requests.get` raise), or a response with an HTTP status code and
a body.  The body is `none` when it is not parseable JSON (then
`response.json()` raises) and otherwise carries the parsed `errors` list
and the value of the `response` field (`data.get("response", [])`). -/
inductive HttpOutcome (α : Type) where
  | transportError : HttpOutcome α
  | response : Nat → Option (List String × α) → HttpOutcome α

namespace Analyzer

/-- `Analyzer.TOP_20_LEAGUES` (analyzer.py lines 11-14). -/
def TOP_20_LEAGUES : List Nat :=
  [39, 140, 61, 78, 135, 94, 88, 71, 179, 144,
   141, 40, 262, 301, 235, 253, 556, 128, 569, 307]

/-- Python `str.split(",")` on the underlying character list: cut at every
comma, keeping empty pieces. -/
def splitCommaAux : List Char → List Char → List (List Char)
  | [], acc => [acc.reverse]
  | c :: cs, acc =>
    if c = ',' then acc.reverse :: splitCommaAux cs []
    else splitCommaAux cs (c :: acc)

/-- Python `str.split(",")`. -/
def pySplitComma (s : String) : List String :=
  (splitCommaAux s.toList []).map List.asString

/-- Python `str.strip()`: drop whitespace from both ends. -/
def pyStrip (s : String) : String :=
  ((s.toList.dropWhile Char.isWhitespace).reverse.dropWhile
    Char.isWhitespace).reverse.asString

/-- Python `str.isdigit()` restricted to ASCII: non-empty and all digits.
(Python also accepts some non-ASCII digit characters; the configuration
values this models are ASCII.) -/
def pyIsDigit (s : String) : Bool :=
  decide (s.toList ≠ []) && s.toList.all Char.isDigit

/-- Value of `int(t)` for a string of ASCII digits. -/
def digitsToNat (cs : List Char) : Nat :=
  cs.foldl (fun n c => n * 10 + (c.toNat - 48)) 0

/-- The list comprehension of analyzer.py line 30:
`[int(x.strip()) for x in leagues_env.split(",") if x.strip().isdigit()]`. -/
def parsedLeagueEntries (env : String) : List Nat :=
  (pySplitComma env).filterMap fun x =>
    let t := pyStrip x
    if pyIsDigit t = true then some (digitsToNat t.toList) else none

/-- League-list configuration (analyzer.py lines 27-35).  `env` is
`os.getenv("LEAGUE_IDS", "")`, so an unset variable is the empty string and
the empty string is falsy.  `sorted(list(set(parsed)))` is the sorted
duplicate-free list of the parsed values.  The `except` branch of the
source cannot fire on ASCII input (every entry passing `isdigit` parses),
so it has no counterpart here. -/
def parse_league_ids (env : String) : List Nat :=
  if env = "" then TOP_20_LEAGUES
  else List.insertionSort (fun a b => a ≤ b) (parsedLeagueEntries env).dedup

/-- `Analyzer._get_current_season` (lines 37-43), with `datetime.now()`
supplied as explicit `year`/`month` arguments. -/
def get_current_season (year month : Nat) : Nat :=
  if month < 8 then year - 1 else year

/-- `Analyzer._get_api_data` (lines 45-58).  `response.raise_for_status()`
raises exactly for statuses in [400, 600), which the catch-all `except`
turns into `None`; an unparseable body makes `response.json()` raise,
likewise caught; a truthy `data.get("errors")` returns `None`; otherwise
the `response` field is returned. -/
def get_api_data {α : Type} (outcome : HttpOutcome α) : Option α :=
  match outcome with
  | HttpOutcome.transportError => none
  | HttpOutcome.response status body =>
    if 400 ≤ status ∧ status < 600 then none
    else
      match body with
      | none => none
      | some p => if p.1 = [] then some p.2 else none

/-- Whether `_get_api_data` emits a log record on the given outcome: the
`except` branch calls `logger.error`, and a truthy `errors` field calls
`logger.warning` before returning `None`. -/
def api_error_logged {α : Type} (outcome : HttpOutcome α) : Bool :=
  match outcome with
  | HttpOutcome.transportError => true
  | HttpOutcome.response status body =>
    if 400 ≤ status ∧ status < 600 then true
    else
      match body with
      | none => true
      | some p => decide (p.1 ≠ [])

/-- `Analyzer._get_last_fixture` (lines 60-68): `fixtures[0] if fixtures
else None`, where `fixtures` is the `_get_api_data` result — both `None`
and the empty list are falsy, and the index is taken only on a non-empty
list. -/
def get_last_fixture (outcome : HttpOutcome (List Fixture)) : Option Fixture :=
  match get_api_data outcome with
  | none => none
  | some [] => none
  | some (f :: _) => some f

/-- `Analyzer._get_team_statistics` (lines 70-73) composed with the falsy
check at the top of `_calculate_real_stats`: the statistics endpoint's
`response` field is an object, modelled as `Option TeamStats` with `none`
standing for a missing or empty (falsy) object. -/
def get_team_statistics (outcome : HttpOutcome (Option TeamStats)) :
    Option TeamStats :=
  match get_api_data outcome with
  | none => none
  | some s => s

/-- `Analyzer._calculate_real_stats` (lines 75-97), with floats as
rationals.  Absent/falsy stats give `(0.0, "N/A")`; zero games played give
`(0.0, "0/0")`; otherwise the draw rate is `draws / played * 100` and the
trend factor `((clean_sheets + failed_to_score) / 2) / played * 100`. -/
def calculate_real_stats (team_stats : Option TeamStats) : Rat × TrendVal :=
  match team_stats with
  | none => ⟨0, TrendVal.str ("N/A")⟩
  | some ts =>
    if ts.playedTotal = 0 then ⟨0, TrendVal.str ("0/0")⟩
    else
      ⟨(ts.drawsTotal : Rat) / (ts.playedTotal : Rat) * 100,
       TrendVal.num (((ts.cleanSheetTotal : Rat) + (ts.failedToScoreTotal : Rat))
         / 2 / (ts.playedTotal : Rat) * 100)⟩

/-- Python truthiness of an optional string: `None` and `""` are falsy. -/
def pyTruthy (s : Option String) : Bool :=
  match s with
  | none => false
  | some t => decide (t ≠ "")

/-- Observable effect of one `_send_telegram_message` call. -/
structure SendResult where
  networkCalled : Bool
  consolePrinted : Bool
  errorLogged : Bool
  exceptionEscaped : Bool
deriving DecidableEq

/-- `Analyzer._send_telegram_message` (lines 99-110).  If either credential
is falsy the message is printed to the console and no request is made;
otherwise `requests.post` is attempted and any exception it raises is
caught and logged (`deliver` is the oracle for that call).  No branch lets
an exception escape. -/
def send_telegram_message (token chatId : Option String)
    (deliver : Except String Unit) : SendResult :=
  if pyTruthy token = false ∨ pyTruthy chatId = false then
    ⟨false, true, false, false⟩
  else
    match deliver with
    | Except.ok _ => ⟨true, false, false, false⟩
    | Except.error _ => ⟨true, false, true, false⟩

/-- The 0-0 test of analyzer.py line 157:
`goals.get('home') == 0 and goals.get('away') == 0`.  A missing or null
goal value is `None`, and `None == 0` is `False` in Python. -/
def isZeroZero (goalsHome goalsAway : Option Int) : Bool :=
  goalsHome == some 0 && goalsAway == some 0

/-- Oracle for all API traffic of one pipeline run: today's fixtures per
league id, the last-finished-fixture query per team id, and the statistics
query per (team id, league id, season). -/
structure ApiEnv where
  fixturesToday : Nat → HttpOutcome (List Fixture)
  lastFixtureQuery : Nat → HttpOutcome (List Fixture)
  teamStatsQuery : Nat → Nat → Nat → HttpOutcome (Option TeamStats)

/-- An alert message, as the structured data that fills the template of
analyzer.py lines 167-178 (date/time string rendering abstracted). -/
structure Alert where
  leagueName : String
  fixtureHomeName : String
  fixtureAwayName : String
  teamName : String
  side : String
  lastOpponent : String
  drawRate : Rat
  trend : TrendVal
deriving DecidableEq

/-- Per-team body of the fixture loop (analyzer.py lines 145-181): fetch
the team's last finished fixture; skip when absent; when it ended 0-0,
fetch statistics, compute the estimator, and emit one alert carrying the
data of the message template. -/
def check_team (env : ApiEnv) (league_id season : Nat) (fx : Fixture)
    (team : Team) (side : String) : List Alert :=
  match get_last_fixture (env.lastFixtureQuery team.id) with
  | none => []
  | some last_match =>
    if isZeroZero last_match.goalsHome last_match.goalsAway = true then
      let res := calculate_real_stats
        (get_team_statistics (env.teamStatsQuery team.id league_id season))
      let last_opponent :=
        if last_match.homeTeam.id = team.id then last_match.awayTeam.name
        else last_match.homeTeam.name
      [⟨fx.leagueName, fx.homeTeam.name, fx.awayTeam.name, team.name, side,
        last_opponent, res.1, res.2⟩]
    else []

/-- Per-fixture body (analyzer.py lines 133-143): fixtures whose status is
not in `['NS', 'TBD']` are skipped before any per-team work; otherwise both
sides are checked, home as "Casa" then away as "Fora".  Returns the team
ids submitted to team-level checking together with the alerts emitted. -/
def process_fixture (env : ApiEnv) (league_id season : Nat) (fx : Fixture) :
    List Nat × List Alert :=
  if fx.statusShort = "NS" ∨ fx.statusShort = "TBD" then
    ⟨[fx.homeTeam.id, fx.awayTeam.id],
     check_team env league_id season fx fx.homeTeam ("Casa") ++
       check_team env league_id season fx fx.awayTeam ("Fora")⟩
  else ⟨[], []⟩

/-- Accumulated observable state of a run: the `matches_found` counter, the
team ids submitted to team-level checking, and the alerts sent. -/
structure RunAcc where
  matchesFound : Nat
  checkedTeams : List Nat
  alerts : List Alert
deriving DecidableEq

/-- Combine the contributions of successive leagues. -/
def appendAcc (a b : RunAcc) : RunAcc :=
  ⟨a.matchesFound + b.matchesFound, a.checkedTeams ++ b.checkedTeams,
   a.alerts ++ b.alerts⟩

/-- Per-league body of `run_daily_analysis` (analyzer.py lines 122-181):
fetch today's fixtures; a falsy result (`None` or `[]`) contributes
nothing (`continue`); otherwise `matches_found` grows by the fixture count
and every fixture is processed. -/
def process_league (env : ApiEnv) (season league_id : Nat) : RunAcc :=
  match get_api_data (env.fixturesToday league_id) with
  | none => ⟨0, [], []⟩
  | some [] => ⟨0, [], []⟩
  | some (f :: fs) =>
    ⟨(f :: fs).length,
     ((f :: fs).map fun fx => (process_fixture env league_id season fx).1).flatten,
     ((f :: fs).map fun fx => (process_fixture env league_id season fx).2).flatten⟩

/-- `Analyzer.run_daily_analysis` (lines 112-183): iterate the configured
leagues in order, accumulating each league's contribution.  The season and
today's date are fixed before the loop; the date only parameterizes the
oracle, so it is left implicit in `env`. -/
def run_daily_analysis (env : ApiEnv) (season : Nat) (leagues : List Nat) :
    RunAcc :=
  leagues.foldl (fun acc lid => appendAcc acc (process_league env season lid))
    ⟨0, [], []⟩

end Analyzer

/-- Observable state of the service after module initialization of
main.py. -/
structure ServiceState where
  analyzerUp : Bool
  errorLogged : Bool
  ready : Bool
deriving DecidableEq

/-- Module-level initialization of main.py (lines 28-32): `Analyzer()` is
attempted; on failure the exception is caught, `logger.error` runs and
`analyzer` is set to `None`.  In either case the FastAPI app is created and
served, so the service reaches its ready state (the health endpoint
answers "online") unconditionally. -/
def init_service (construction : Except String Unit) : ServiceState :=
  match construction with
  | Except.ok _ => ⟨true, false, true⟩
  | Except.error _ => ⟨false, true, true⟩

/-- `run_analysis_async` (main.py lines 34-41): the pipeline body runs only
when `analyzer` is not `None`; otherwise an error is logged and nothing
happens. -/
def run_analysis_runs (s : ServiceState) : Bool :=
  s.analyzerUp

/-- Concrete team used in evaluation examples. -/
def wTeamA : Team := ⟨1, ("Alpha")⟩

/-- A concrete finished fixture that did not end 0-0 (home won 1-0). -/
def wLastFx : Fixture :=
  ⟨⟨1, ("Alpha")⟩, ⟨3, ("Gamma")⟩, ("L"), ("FT"), some 1, some 0⟩

/-- A concrete fixture scheduled for today, not yet started. -/
def wTodayFx : Fixture :=
  ⟨⟨1, ("Alpha")⟩, ⟨2, ("Beta")⟩, ("L"), ("NS"), none, none⟩

/-- A concrete finished fixture used as a skipped (already played) entry. -/
def wFtFixture : Fixture :=
  ⟨⟨1, ("Alpha")⟩, ⟨2, ("Beta")⟩, ("L"), ("FT"), some 1, some 2⟩

/-- Oracle where the last-fixture query answers with `wLastFx` and the
fixtures-today query answers with an empty list. -/
def wEnv : Analyzer.ApiEnv :=
  ⟨fun _ => HttpOutcome.response 200 (some ⟨[], []⟩),
   fun _ => HttpOutcome.response 200 (some ⟨[], [wLastFx]⟩),
   fun _ _ _ => HttpOutcome.transportError⟩

/-- Oracle where every query fails at the transport level. -/
def wEmptyEnv : Analyzer.ApiEnv :=
  ⟨fun _ => HttpOutcome.transportError,
   fun _ => HttpOutcome.transportError,
   fun _ _ _ => HttpOutcome.transportError⟩

/-- Oracle where every league has exactly one fixture today and that
fixture is already finished (status "FT"). -/
def wFtEnv : Analyzer.ApiEnv :=
  ⟨fun _ => HttpOutcome.response 200 (some ⟨[], [wFtFixture]⟩),
   fun _ => HttpOutcome.transportError,
   fun _ _ _ => HttpOutcome.transportError⟩

/-- The empty-run accumulator is a right identity for `appendAcc`. -/
theorem appendAcc_zero (a : Analyzer.RunAcc) :
    Analyzer.appendAcc a ⟨0, [], []⟩ = a := by
  cases a
  simp [Analyzer.appendAcc]

/-- The empty-run accumulator is a left identity for `appendAcc`. -/
theorem appendAcc_zero_left (a : Analyzer.RunAcc) :
    Analyzer.appendAcc ⟨0, [], []⟩ a = a := by
  cases a
  simp [Analyzer.appendAcc]

/-- `appendAcc` is associative. -/
theorem appendAcc_assoc (a b c : Analyzer.RunAcc) :
    Analyzer.appendAcc (Analyzer.appendAcc a b) c =
      Analyzer.appendAcc a (Analyzer.appendAcc b c) := by
  cases a
  cases b
  cases c
  simp [Analyzer.appendAcc, Nat.add_assoc]

/-- The league fold starting from any accumulator factors through the fold
starting from the empty accumulator. -/
theorem foldl_appendAcc (env : Analyzer.ApiEnv) (season : Nat) (ls : List Nat)
    (acc : Analyzer.RunAcc) :
    List.foldl
        (fun a lid => Analyzer.appendAcc a (Analyzer.process_league env season lid))
        acc ls =
      Analyzer.appendAcc acc
        (List.foldl
          (fun a lid => Analyzer.appendAcc a (Analyzer.process_league env season lid))
          ⟨0, [], []⟩ ls) := by
  induction ls generalizing acc with
  | nil => simp [appendAcc_zero]
  | cons l ls ih =>
    simp only [List.foldl_cons]
    rw [ih, ih (Analyzer.appendAcc ⟨0, [], []⟩ (Analyzer.process_league env season l)),
      appendAcc_zero_left, appendAcc_assoc]

/-- One run over `l :: ls` is the contribution of league `l` followed by
the run over `ls`. -/
theorem run_cons_eq (env : Analyzer.ApiEnv) (season l : Nat) (ls : List Nat) :
    Analyzer.run_daily_analysis env season (l :: ls) =
      Analyzer.appendAcc (Analyzer.process_league env season l)
        (Analyzer.run_daily_analysis env season ls) := by
  unfold Analyzer.run_daily_analysis
  simp only [List.foldl_cons]
  rw [foldl_appendAcc, appendAcc_zero_left]

/-- Mapping a pointwise-empty function and flattening yields the empty
list. -/
theorem flatten_nil_of_forall {α β : Type} (l : List α) (g : α → List β)
    (h : ∀ x ∈ l, g x = []) : (l.map g).flatten = [] := by
  induction l with
  | nil => rfl
  | cons a l ih =>
    simp only [List.map_cons, List.flatten_cons]
    rw [h a (List.mem_cons_self a l), List.nil_append]
    exact ih fun x hx => h x (List.mem_cons_of_mem a hx)

/-- Claim C2: for every team-statistics input with played > 0, the
estimator returns a draw rate exactly equal to draws/played*100, and the
returned trend value ((cleanSheets + failedToScore) / 2) / played * 100
lies in [0, 100] whenever cleanSheets + failedToScore ≤ 2*played. -/
theorem claim_C2 (ts : TeamStats) (h : 0 < ts.playedTotal) :
    (Analyzer.calculate_real_stats (some ts)).1 =
      (ts.drawsTotal : Rat) / (ts.playedTotal : Rat) * 100 ∧
    ∃ q : Rat,
      (Analyzer.calculate_real_stats (some ts)).2 = TrendVal.num q ∧
      q = ((ts.cleanSheetTotal : Rat) + (ts.failedToScoreTotal : Rat)) / 2 /
        (ts.playedTotal : Rat) * 100 ∧
      (ts.cleanSheetTotal + ts.failedToScoreTotal ≤ 2 * ts.playedTotal →
        0 ≤ q ∧ q ≤ 100) := by
  have hne : ts.playedTotal ≠ 0 := Nat.pos_iff_ne_zero.mp h
  have hp : (0 : Rat) < (ts.playedTotal : Rat) := by exact_mod_cast h
  constructor
  · simp [Analyzer.calculate_real_stats, hne]
  · refine ⟨((ts.cleanSheetTotal : Rat) + (ts.failedToScoreTotal : Rat)) / 2 /
      (ts.playedTotal : Rat) * 100, ?_, rfl, ?_⟩
    · simp [Analyzer.calculate_real_stats, hne]
    · intro hb
      have hb2 : (ts.cleanSheetTotal : Rat) + (ts.failedToScoreTotal : Rat) ≤
          2 * (ts.playedTotal : Rat) := by exact_mod_cast hb
      constructor
      · positivity
      · rw [div_div, div_mul_eq_mul_div, div_le_iff₀ (by positivity)]
        linarith

/-- Evaluation of claim C2 at stats with 10 games played and 3 draws. -/
theorem claim_C2_witness :
    0 < (⟨10, 3, 2, 1⟩ : TeamStats).playedTotal ∧
    (Analyzer.calculate_real_stats (some ⟨10, 3, 2, 1⟩)).1 =
      ((3 : Nat) : Rat) / ((10 : Nat) : Rat) * 100 :=
  ⟨by decide, (claim_C2 ⟨10, 3, 2, 1⟩ (by decide)).1⟩

/-- Claim C3 fails on the code: on an absent input the estimator returns
the pair (0, "N/A"), whose second component is a sentinel string rather
than the number 0. -/
theorem claim_C3_cex :
    Analyzer.calculate_real_stats none ≠ ⟨0, TrendVal.num 0⟩ := by
  simp [Analyzer.calculate_real_stats]

/-- Claim C3 (amended): for an absent input the estimator returns
(0, "N/A"), and for played = 0 it returns (0, "0/0") — the draw rate is 0
and the trend value is a sentinel string in both no-data cases. -/
theorem claim_C3_amended (ts : TeamStats) (h : ts.playedTotal = 0) :
    Analyzer.calculate_real_stats none = ⟨0, TrendVal.str ("N/A")⟩ ∧
    Analyzer.calculate_real_stats (some ts) = ⟨0, TrendVal.str ("0/0")⟩ := by
  constructor
  · rfl
  · simp [Analyzer.calculate_real_stats, h]

/-- Evaluation of amended claim C3 at all-zero statistics. -/
theorem claim_C3_witness :
    (⟨0, 0, 0, 0⟩ : TeamStats).playedTotal = 0 ∧
    Analyzer.calculate_real_stats (some ⟨0, 0, 0, 0⟩) =
      ⟨0, TrendVal.str ("0/0")⟩ :=
  ⟨rfl, (claim_C3_amended ⟨0, 0, 0, 0⟩ rfl).2⟩

/-- Claim C5 fails on the code: when construction of the Analyzer raises,
main.py catches the exception, logs it, sets the analyzer to None, and the
FastAPI service still starts — the ready state is reached anyway. -/
theorem claim_C5_cex :
    (init_service (Except.error ("missing configuration"))).ready = true ∧
    (init_service (Except.error ("missing configuration"))).analyzerUp = false :=
  ⟨rfl, rfl⟩

/-- Claim C5 (amended): if construction of the Analyzer fails, the error is
logged and the analyzer is disabled, so no analysis run does any work; but
the service still enters its ready state — startup is never prevented. -/
theorem claim_C5_amended (e : String) :
    init_service (Except.error e) = ⟨false, true, true⟩ ∧
    run_analysis_runs (init_service (Except.error e)) = false ∧
    (∀ c : Except String Unit, (init_service c).ready = true) := by
  refine ⟨rfl, rfl, ?_⟩
  intro c
  cases c <;> rfl

/-- Claim C7: the Notifier never lets an exception escape; with a falsy
token or chat id it prints to the console and makes no network call; when
delivery is attempted, a delivery failure is logged and not raised. -/
theorem claim_C7 (token chatId : Option String) (deliver : Except String Unit) :
    (Analyzer.send_telegram_message token chatId deliver).exceptionEscaped = false ∧
    ((Analyzer.pyTruthy token = false ∨ Analyzer.pyTruthy chatId = false) →
      Analyzer.send_telegram_message token chatId deliver =
        ⟨false, true, false, false⟩) ∧
    (∀ e, deliver = Except.error e → Analyzer.pyTruthy token = true →
      Analyzer.pyTruthy chatId = true →
      Analyzer.send_telegram_message token chatId deliver =
        ⟨true, false, true, false⟩) := by
  refine ⟨?_, ?_, ?_⟩
  · by_cases hc : Analyzer.pyTruthy token = false ∨ Analyzer.pyTruthy chatId = false
    · simp [Analyzer.send_telegram_message, hc]
    · cases deliver <;> simp [Analyzer.send_telegram_message, hc]
  · intro hc
    simp [Analyzer.send_telegram_message, hc]
  · intro e he ht hcid
    subst he
    simp [Analyzer.send_telegram_message, ht, hcid]

/-- Evaluation of claim C7 with an absent token: console fallback, no
network call. -/
theorem claim_C7_witness :
    (Analyzer.pyTruthy none = false ∨ Analyzer.pyTruthy (some ("x")) = false) ∧
    Analyzer.send_telegram_message none (some ("x")) (Except.ok ()) =
      ⟨false, true, false, false⟩ :=
  ⟨Or.inl rfl, (claim_C7 none (some ("x")) (Except.ok ())).2.1 (Or.inl rfl)⟩

/-- Claim C10: the last-fixture lookup is total — it equals taking the
optional head of the query result, returns none on an absent or empty
result, and yields an element only when the underlying list is non-empty,
so no out-of-bounds access occurs. -/
theorem claim_C10 (o : HttpOutcome (List Fixture)) :
    Analyzer.get_last_fixture o = (Analyzer.get_api_data o).bind List.head? ∧
    (Analyzer.get_api_data o = none → Analyzer.get_last_fixture o = none) ∧
    (Analyzer.get_api_data o = some [] → Analyzer.get_last_fixture o = none) ∧
    (∀ f, Analyzer.get_last_fixture o = some f →
      ∃ rest, Analyzer.get_api_data o = some (f :: rest)) := by
  cases h : Analyzer.get_api_data o with
  | none =>
    refine ⟨?_, fun _ => ?_, fun hx => ?_, fun f hf => ?_⟩
    · simp [Analyzer.get_last_fixture, h]
    · simp [Analyzer.get_last_fixture, h]
    · simp [Analyzer.get_last_fixture, h]
    · rw [Analyzer.get_last_fixture, h] at hf
      exact absurd hf (by simp)
  | some l =>
    cases l with
    | nil =>
      refine ⟨?_, fun hx => ?_, fun _ => ?_, fun f hf => ?_⟩
      · simp [Analyzer.get_last_fixture, h]
      · simp [Analyzer.get_last_fixture, h]
      · simp [Analyzer.get_last_fixture, h]
      · rw [Analyzer.get_last_fixture, h] at hf
        exact absurd hf (by simp)
    | cons f fs =>
      refine ⟨?_, fun hx => ?_, fun hx => ?_, fun g hg => ?_⟩
      · simp [Analyzer.get_last_fixture, h]
      · exact absurd hx (by simp)
      · exact absurd hx (by simp)
      · have hfg : f = g := by
          rw [Analyzer.get_last_fixture, h] at hg
          simpa using hg
        exact ⟨fs, by rw [← hfg]⟩

/-- Evaluation of claim C10 at a transport failure: the lookup returns
none. -/
theorem claim_C10_witness :
    Analyzer.get_api_data (HttpOutcome.transportError : HttpOutcome (List Fixture)) =
      none ∧
    Analyzer.get_last_fixture HttpOutcome.transportError = none :=
  ⟨rfl, (claim_C10 HttpOutcome.transportError).2.1 rfl⟩

/-- Claim C1: a last-match record is flagged as "last match was 0-0"
exactly when goals.home = 0 and goals.away = 0; any other combination,
including null goal values, is not flagged, and an unflagged team produces
no notification. -/
theorem claim_C1 (env : Analyzer.ApiEnv) (lid season : Nat) (fx : Fixture)
    (t : Team) (s : String) (lm : Fixture)
    (hlm : Analyzer.get_last_fixture (env.lastFixtureQuery t.id) = some lm)
    (hflag : Analyzer.isZeroZero lm.goalsHome lm.goalsAway = false) :
    (∀ gh ga : Option Int,
      Analyzer.isZeroZero gh ga = true ↔ (gh = some 0 ∧ ga = some 0)) ∧
    Analyzer.check_team env lid season fx t s = [] := by
  constructor
  · intro gh ga
    simp [Analyzer.isZeroZero]
  · simp [Analyzer.check_team, hlm, hflag]

/-- Evaluation of claim C1: a team whose last match ended 1-0 produces no
alert. -/
theorem claim_C1_witness :
    Analyzer.get_last_fixture (wEnv.lastFixtureQuery wTeamA.id) = some wLastFx ∧
    Analyzer.isZeroZero wLastFx.goalsHome wLastFx.goalsAway = false ∧
    Analyzer.check_team wEnv 39 2025 wTodayFx wTeamA ("Casa") = [] :=
  ⟨by decide, by decide,
   (claim_C1 wEnv 39 2025 wTodayFx wTeamA ("Casa") wLastFx (by decide)
     (by decide)).2⟩

/-- Claim C4 fails on the code as stated: `raise_for_status` raises only
for 4xx/5xx statuses, so a non-2xx status outside that range (here 300)
with a well-formed body is passed through, not turned into the absent
value. -/
theorem claim_C4_cex :
    ¬ (200 ≤ 300 ∧ 300 < 300) ∧
    Analyzer.get_api_data
        (HttpOutcome.response 300 (some ⟨[], [(7 : Nat)]⟩)) = some [7] :=
  ⟨by decide, rfl⟩

/-- Claim C4 (amended): on a transport-level failure, a 4xx/5xx status, an
unparseable body, or a body carrying a non-empty errors field, the client
returns the absent value and logs the error; the catch-all handler means no
exception propagates (the function is total by construction). -/
theorem claim_C4_amended {α : Type} (o : HttpOutcome α) :
    (o = HttpOutcome.transportError →
      Analyzer.get_api_data o = none ∧ Analyzer.api_error_logged o = true) ∧
    (∀ status body, o = HttpOutcome.response status body →
      400 ≤ status → status < 600 →
      Analyzer.get_api_data o = none ∧ Analyzer.api_error_logged o = true) ∧
    (∀ status errors resp, o = HttpOutcome.response status (some ⟨errors, resp⟩) →
      errors ≠ [] →
      Analyzer.get_api_data o = none ∧ Analyzer.api_error_logged o = true) ∧
    (∀ status, o = HttpOutcome.response status none →
      Analyzer.get_api_data o = none ∧ Analyzer.api_error_logged o = true) := by
  refine ⟨?_, ?_, ?_, ?_⟩
  · intro h
    subst h
    exact ⟨rfl, rfl⟩
  · intro status body h h4 h6
    subst h
    simp [Analyzer.get_api_data, Analyzer.api_error_logged, h4, h6]
  · intro status errors resp h herr
    subst h
    constructor
    · simp only [Analyzer.get_api_data]
      split
      · rfl
      · simp [herr]
    · simp only [Analyzer.api_error_logged]
      split
      · rfl
      · simp [herr]
  · intro status h
    subst h
    constructor
    · simp only [Analyzer.get_api_data]
      split <;> rfl
    · simp only [Analyzer.api_error_logged]
      split <;> rfl

/-- Evaluation of amended claim C4 at a transport failure and at a 200
response with a non-empty errors field: both yield the absent value. -/
theorem claim_C4_witness :
    Analyzer.get_api_data (HttpOutcome.transportError : HttpOutcome (List Nat)) =
      none ∧
    Analyzer.get_api_data
        (HttpOutcome.response 200 (some ⟨[("rate limit")], ([] : List Nat)⟩)) =
      none :=
  ⟨((claim_C4_amended HttpOutcome.transportError).1 rfl).1,
   ((claim_C4_amended
       (HttpOutcome.response 200 (some ⟨[("rate limit")], ([] : List Nat)⟩))).2.2.1
     200 [("rate limit")] [] rfl (by decide)).1⟩

/-- Claim C6 fails on the code as stated: a set but invalid LEAGUE_IDS
value ("abc" has no digit entry) yields the empty league list, not the
built-in default list. -/
theorem claim_C6_cex :
    Analyzer.parse_league_ids ("abc") = [] ∧
    Analyzer.parse_league_ids ("abc") ≠ Analyzer.TOP_20_LEAGUES := by
  constructor
  · rfl
  · decide

/-- Claim C6 (amended): an absent/empty LEAGUE_IDS yields the built-in
default list; a non-empty value yields the sorted duplicate-free list of
the integer values of its comma-separated entries that are digit strings
after stripping — entries that are not digit strings are dropped, so a
value with no valid entry yields the empty list rather than the default. -/
theorem claim_C6_amended (env : String) (h : env ≠ "") :
    Analyzer.parse_league_ids ("") = Analyzer.TOP_20_LEAGUES ∧
    List.Sorted (fun a b => a ≤ b) (Analyzer.parse_league_ids env) ∧
    (Analyzer.parse_league_ids env).Nodup ∧
    (∀ n, n ∈ Analyzer.parse_league_ids env ↔
      n ∈ Analyzer.parsedLeagueEntries env) := by
  refine ⟨rfl, ?_, ?_, ?_⟩
  · simp only [Analyzer.parse_league_ids, if_neg h]
    exact List.sorted_insertionSort _ _
  · simp only [Analyzer.parse_league_ids, if_neg h]
    exact ((List.perm_insertionSort _ _).nodup_iff).mpr (List.nodup_dedup _)
  · intro n
    simp only [Analyzer.parse_league_ids, if_neg h]
    rw [List.mem_insertionSort]
    exact List.mem_dedup

/-- Evaluation of amended claim C6 on a value mixing valid, padded,
duplicate and invalid entries. -/
theorem claim_C6_witness :
    ("140, 39,abc,39" : String) ≠ "" ∧
    39 ∈ Analyzer.parse_league_ids ("140, 39,abc,39") :=
  ⟨by decide,
   ((claim_C6_amended ("140, 39,abc,39") (by decide)).2.2.2 39).mpr (by decide)⟩

/-- Claim C8: a league whose fixtures query yields the absent value or an
empty sequence contributes nothing and does not stop the run — the whole
run result equals the run over the remaining leagues. -/
theorem claim_C8 (env : Analyzer.ApiEnv) (season : Nat) (pre post : List Nat)
    (lid : Nat)
    (h : Analyzer.get_api_data (env.fixturesToday lid) = none ∨
      Analyzer.get_api_data (env.fixturesToday lid) = some []) :
    Analyzer.run_daily_analysis env season (pre ++ lid :: post) =
      Analyzer.run_daily_analysis env season (pre ++ post) := by
  have hpl : Analyzer.process_league env season lid = ⟨0, [], []⟩ := by
    rcases h with h | h <;> simp [Analyzer.process_league, h]
  unfold Analyzer.run_daily_analysis
  rw [List.foldl_append, List.foldl_append]
  simp only [List.foldl_cons]
  rw [hpl, appendAcc_zero]

/-- Evaluation of claim C8: with every query failing, dropping a league
from the middle of the list leaves the run result unchanged. -/
theorem claim_C8_witness :
    Analyzer.get_api_data (wEmptyEnv.fixturesToday 5) = none ∧
    Analyzer.run_daily_analysis wEmptyEnv 2025 ([1] ++ 5 :: [2]) =
      Analyzer.run_daily_analysis wEmptyEnv 2025 ([1] ++ [2]) :=
  ⟨rfl, claim_C8 wEmptyEnv 2025 [1] [2] 5 (Or.inl rfl)⟩

/-- Claim C9: a fixture is submitted to team-level checking only when its
status is "NS" or "TBD"; a fixture with any other status is skipped before
any per-team work, and a run all of whose fixtures have other statuses
checks no team and sends no alert. -/
theorem claim_C9 (env : Analyzer.ApiEnv) (season : Nat) (leagues : List Nat)
    (h : ∀ lid fxs, Analyzer.get_api_data (env.fixturesToday lid) = some fxs →
      ∀ fx ∈ fxs, fx.statusShort ≠ "NS" ∧ fx.statusShort ≠ "TBD") :
    (∀ lid season2 fx, fx.statusShort ≠ "NS" → fx.statusShort ≠ "TBD" →
      Analyzer.process_fixture env lid season2 fx = ⟨[], []⟩) ∧
    (Analyzer.run_daily_analysis env season leagues).checkedTeams = [] ∧
    (Analyzer.run_daily_analysis env season leagues).alerts = [] := by
  have hpf : ∀ lid season2 fx, fx.statusShort ≠ "NS" → fx.statusShort ≠ "TBD" →
      Analyzer.process_fixture env lid season2 fx = ⟨[], []⟩ := by
    intro lid s2 fx h1 h2
    simp [Analyzer.process_fixture, h1, h2]
  have hpl : ∀ lid, (Analyzer.process_league env season lid).checkedTeams = [] ∧
      (Analyzer.process_league env season lid).alerts = [] := by
    intro lid
    unfold Analyzer.process_league
    cases hfx : Analyzer.get_api_data (env.fixturesToday lid) with
    | none => exact ⟨rfl, rfl⟩
    | some l =>
      cases l with
      | nil => exact ⟨rfl, rfl⟩
      | cons f fs =>
        constructor
        · show (List.map (fun fx => (Analyzer.process_fixture env lid season fx).1)
              (f :: fs)).flatten = []
          exact flatten_nil_of_forall (f :: fs) _ fun fx hmem => by
            rw [hpf lid season fx (h lid (f :: fs) hfx fx hmem).1
              (h lid (f :: fs) hfx fx hmem).2]
        · show (List.map (fun fx => (Analyzer.process_fixture env lid season fx).2)
              (f :: fs)).flatten = []
          exact flatten_nil_of_forall (f :: fs) _ fun fx hmem => by
            rw [hpf lid season fx (h lid (f :: fs) hfx fx hmem).1
              (h lid (f :: fs) hfx fx hmem).2]
  have hrun : ∀ ls : List Nat,
      (Analyzer.run_daily_analysis env season ls).checkedTeams = [] ∧
      (Analyzer.run_daily_analysis env season ls).alerts = [] := by
    intro ls
    induction ls with
    | nil => exact ⟨rfl, rfl⟩
    | cons l ls ih =>
      rw [run_cons_eq]
      constructor
      · show ((Analyzer.process_league env season l).checkedTeams ++
          (Analyzer.run_daily_analysis env season ls).checkedTeams) = []
        rw [(hpl l).1, ih.1]
        rfl
      · show ((Analyzer.process_league env season l).alerts ++
          (Analyzer.run_daily_analysis env season ls).alerts) = []
        rw [(hpl l).2, ih.2]
        rfl
  exact ⟨hpf, (hrun leagues).1, (hrun leagues).2⟩

/-- Evaluation of claim C9: a run whose only fixture today is already
finished checks no team and sends no alert. -/
theorem claim_C9_witness :
    (Analyzer.run_daily_analysis wFtEnv 2025 [39]).checkedTeams = [] ∧
    (Analyzer.run_daily_analysis wFtEnv 2025 [39]).alerts = [] := by
  have hh : ∀ lid fxs,
      Analyzer.get_api_data (wFtEnv.fixturesToday lid) = some fxs →
      ∀ fx ∈ fxs, fx.statusShort ≠ "NS" ∧ fx.statusShort ≠ "TBD" := by
    intro lid fxs hfx fx hmem
    have he : Analyzer.get_api_data (wFtEnv.fixturesToday lid) =
        some [wFtFixture] := rfl
    rw [he] at hfx
    have hfxs : fxs = [wFtFixture] := (Option.some.inj hfx).symm
    subst hfxs
    have hone : fx = wFtFixture := by simpa using hmem
    subst hone
    exact ⟨by decide, by decide⟩
  exact ⟨(claim_C9 wFtEnv 2025 [39] hh).2.1, (claim_C9 wFtEnv 2025 [39] hh).2.2⟩

end SG
